import Mathlib

/-!
Shallow embedding of the FemtoUniverse track-selection engine
(src/PWGCF/FemtoUniverse/Core/FemtoUniverseTrackSelection.h).

Float observables and thresholds are embedded as rationals; the two places
where the source computes a real square root (the Euclidean DCA in
getCutContainer and the combined PID n-sigma) are embedded over the reals.
The base class FemtoUniverseObjectSelection (selection storage, counting,
threshold collapsing and bit setting) is not among the repository files
given; those operations are modelled from the specification and marked so
in their doc comments.
-/

namespace FemtoUniverse

/-- Modelled from the spec: the five comparison kinds of the generic
selection framework (the enum lives in the base-class header that is not
among the given files). -/
inductive SelectionType where
  | kEqual
  | kLowerLimit
  | kUpperLimit
  | kAbsLowerLimit
  | kAbsUpperLimit
deriving DecidableEq, Repr

/-- The track selection variables, in the order of the source enum
`TrackSel` (FemtoUniverseTrackSelection.h lines 40-55). -/
inductive TrackSel where
  | kSign
  | kpTMin
  | kpTMax
  | kEtaMax
  | kTPCnClsMin
  | kTPCfClsMin
  | kTPCcRowsMin
  | kTPCsClsMax
  | kTPCfracsClsMax
  | kITSnClsMin
  | kITSnClsIbMin
  | kDCAxyMax
  | kDCAzMax
  | kDCAMin
  | kPIDnSigmaMax
deriving DecidableEq, Repr

/-- The numeric value of a `TrackSel` enumerator (its index into the static
arrays of the source). -/
def TrackSel.idx : TrackSel → Nat
  | .kSign => 0
  | .kpTMin => 1
  | .kpTMax => 2
  | .kEtaMax => 3
  | .kTPCnClsMin => 4
  | .kTPCfClsMin => 5
  | .kTPCcRowsMin => 6
  | .kTPCsClsMax => 7
  | .kTPCfracsClsMax => 8
  | .kITSnClsMin => 9
  | .kITSnClsIbMin => 10
  | .kDCAxyMax => 11
  | .kDCAzMax => 12
  | .kDCAMin => 13
  | .kPIDnSigmaMax => 14

/-- `kNtrackSelection` of the source (line 249). -/
def kNtrackSelection : Nat := 15

/-- `kSelectionNames` of the source (lines 250-264), in array order. -/
def kSelectionNames : List String :=
  ["Sign", "PtMin", "PtMax", "EtaMax", "TPCnClsMin", "TPCfClsMin",
   "TPCcRowsMin", "TPCsClsMax", "TPCfracsClsMax", "ITSnClsMin",
   "ITSnClsIbMin", "DCAxyMax", "DCAzMax", "DCAMin", "PIDnSigmaMax"]

/-- `kSelectionTypes` of the source (lines 266-280), in array order.  Note
the entry at index 13 (`kDCAMin`): the source array has `kAbsUpperLimit`
there. -/
def kSelectionTypes : List SelectionType :=
  [.kEqual, .kLowerLimit, .kUpperLimit, .kAbsUpperLimit, .kLowerLimit,
   .kLowerLimit, .kLowerLimit, .kUpperLimit, .kUpperLimit, .kLowerLimit,
   .kLowerLimit, .kAbsUpperLimit, .kAbsUpperLimit, .kAbsUpperLimit,
   .kAbsUpperLimit]

/-- `getSelectionName` (lines 162-168): the optional pre/suf strings around
the catalogue name. -/
def getSelectionName (iSel : TrackSel) (pre suf : String) : String :=
  pre ++ kSelectionNames.getD iSel.idx "" ++ suf

/-- `findSelectionIndex` (lines 173-182): first index whose prefixed name
compares equal to `obs`, -1 when none does. -/
def findSelectionIndex (obs pre : String) : Int :=
  match (List.range kNtrackSelection).find?
      (fun index => decide (obs = pre ++ kSelectionNames.getD index "")) with
  | some index => (index : Int)
  | none => -1

/-- `getSelectionType` (lines 186-189): the static table lookup. -/
def getSelectionType (iSel : TrackSel) : SelectionType :=
  kSelectionTypes.getD iSel.idx SelectionType.kEqual

/-- The track record: the named numeric accessors the engine reads.  The
per-species n-sigma lookups are functions from a species identifier. -/
structure Track where
  sign : ℚ
  pt : ℚ
  eta : ℚ
  tpcNClsFound : ℚ
  tpcCrossedRowsOverFindableCls : ℚ
  tpcNClsCrossedRows : ℚ
  tpcNClsShared : ℚ
  tpcFractionSharedCls : ℚ
  itsNCls : ℚ
  itsNClsInnerBarrel : ℚ
  dcaXY : ℚ
  dcaZ : ℚ
  tpcNSigma : Nat → ℚ
  tofNSigma : Nat → ℚ

/-- Modelled from the spec: one configured cut of the base-class selection
registry, a (variable kind, threshold) pair; its comparison kind is fixed
by the static table `kSelectionTypes`. -/
structure SelectionCriterion where
  selVariable : TrackSel
  threshold : ℚ
deriving DecidableEq, Repr

/-- The member state of `FemtoUniverseTrackSelection` after `init` has run
(lines 217-248 of the source): the per-kind counts, the collapsed
thresholds, the PID offsets and species, the reject flag, and the
registered criteria of the base class. -/
structure Config where
  nRejectNotPropagatedTracks : Bool
  nPtMinSel : Int
  nPtMaxSel : Int
  nEtaSel : Int
  nTPCnMinSel : Int
  nTPCfMinSel : Int
  nTPCcMinSel : Int
  nTPCsMaxSel : Int
  nTPCsFracMaxSel : Int
  nITScMinSel : Int
  nITScIbMinSel : Int
  nDCAxyMaxSel : Int
  nDCAzMaxSel : Int
  nDCAMinSel : Int
  nPIDnSigmaSel : Int
  pTMin : ℚ
  pTMax : ℚ
  etaMax : ℚ
  nClsMin : ℚ
  fClsMin : ℚ
  cTPCMin : ℚ
  sTPCMax : ℚ
  fracsTPCMax : ℚ
  nITSclsMin : ℚ
  nITSclsIbMin : ℚ
  dcaXYMax : ℚ
  dcaZMax : ℚ
  dcaMin : ℚ
  nSigmaPIDMax : ℚ
  nSigmaPIDOffsetTPC : ℚ
  nSigmaPIDOffsetTOF : ℚ
  kPIDspecies : List Nat
  mSelections : List SelectionCriterion
deriving DecidableEq

/-- The DCA value the minimal path uses (line 407 of the source): it is
`dcaXY` again, not the Euclidean combination — the source comments this
choice explicitly. -/
def minimalDca (t : Track) : ℚ := t.dcaXY

/-- The PID portion of `isSelectedMinimal` (lines 458-469): the track
passes when for some configured species the offset-corrected TPC n-sigma
magnitude is strictly below the collapsed maximum. -/
def pidFulfilled (cfg : Config) (t : Track) : Bool :=
  (cfg.kPIDspecies.map t.tpcNSigma).any
    (fun pidTPCVal => decide (|pidTPCVal - cfg.nSigmaPIDOffsetTPC| < cfg.nSigmaPIDMax))

/-- `isSelectedMinimal` (lines 393-471), with the member/track state it
finishes with returned explicitly: the body performs no assignment to
either, so every return site pairs the result with the unchanged `cfg` and
`t`.  Each `if` mirrors one early `return false` of the source, in source
order. -/
def isSelectedMinimalST (cfg : Config) (t : Track) : Bool × Config × Track :=
  if 0 < cfg.nPtMinSel ∧ t.pt < cfg.pTMin then (false, cfg, t)
  else if 0 < cfg.nPtMaxSel ∧ cfg.pTMax < t.pt then (false, cfg, t)
  else if 0 < cfg.nEtaSel ∧ cfg.etaMax < |t.eta| then (false, cfg, t)
  else if 0 < cfg.nTPCnMinSel ∧ t.tpcNClsFound < cfg.nClsMin then (false, cfg, t)
  else if 0 < cfg.nTPCfMinSel ∧ t.tpcCrossedRowsOverFindableCls < cfg.fClsMin then (false, cfg, t)
  else if 0 < cfg.nTPCcMinSel ∧ t.tpcNClsCrossedRows < cfg.cTPCMin then (false, cfg, t)
  else if 0 < cfg.nTPCsMaxSel ∧ cfg.sTPCMax < t.tpcNClsShared then (false, cfg, t)
  else if 0 < cfg.nTPCsFracMaxSel ∧ cfg.fracsTPCMax < t.tpcFractionSharedCls then (false, cfg, t)
  else if 0 < cfg.nITScMinSel ∧ t.itsNCls < cfg.nITSclsMin then (false, cfg, t)
  else if 0 < cfg.nITScIbMinSel ∧ t.itsNClsInnerBarrel < cfg.nITSclsIbMin then (false, cfg, t)
  else if 0 < cfg.nDCAxyMaxSel ∧ cfg.dcaXYMax < |t.dcaXY| then (false, cfg, t)
  else if 0 < cfg.nDCAzMaxSel ∧ cfg.dcaZMax < |t.dcaZ| then (false, cfg, t)
  else if 0 < cfg.nDCAMinSel ∧ |minimalDca t| < cfg.dcaMin then (false, cfg, t)
  else if cfg.nRejectNotPropagatedTracks = true ∧ 1000 < |minimalDca t| then (false, cfg, t)
  else if 0 < cfg.nPIDnSigmaSel then (pidFulfilled cfg t, cfg, t)
  else (true, cfg, t)

/-- The boolean `isSelectedMinimal` returns. -/
def isSelectedMinimal (cfg : Config) (t : Track) : Bool :=
  (isSelectedMinimalST cfg t).1

/-- The DCA value `getCutContainer` uses for the `kDCAMin` criterion
(line 491 of the source): the Euclidean combination of dcaXY and dcaZ. -/
noncomputable def cutContainerDca (t : Track) : ℝ :=
  Real.sqrt ((t.dcaXY : ℝ) ^ 2 + (t.dcaZ : ℝ) ^ 2)

/-- Modelled from the spec: the per-criterion pass test of the base class
(`testAndSetBit` comparison semantics, spec section 4.1). -/
def passes (ty : SelectionType) (threshold obs : ℝ) : Prop :=
  match ty with
  | .kEqual => obs = threshold
  | .kLowerLimit => threshold ≤ obs
  | .kUpperLimit => obs ≤ threshold
  | .kAbsLowerLimit => threshold ≤ |obs|
  | .kAbsUpperLimit => |obs| ≤ threshold

/-- The mutable locals of `getCutContainer` (lines 476-478 and 499): the
ordinary container and its bit counter, the PID container and its bit
index, and the `observable` local that the switch may leave unset. -/
structure CutState where
  output : Nat
  counter : Nat
  outputPID : Nat
  pidCounter : Nat
  observable : ℝ

/-- Modelled from the spec: `testAndSetBit` of the base class — on pass set
the bit at the current index; the index advances once per evaluated
criterion. -/
noncomputable def checkSelectionSetBit (ty : SelectionType) (threshold obs : ℝ)
    (container counter : Nat) : Nat × Nat :=
  haveI := Classical.propDecidable (passes ty threshold obs)
  if passes ty threshold obs then (container ||| (1 <<< counter), counter + 1)
  else (container, counter + 1)

/-- Modelled from the spec: `testAndSetBitPID` — the abs-upper-limit test
against the PID criterion's bound, appended at the next free PID bit. -/
noncomputable def checkSelectionSetBitPID (threshold obs : ℝ)
    (container pidCounter : Nat) : Nat × Nat :=
  haveI := Classical.propDecidable (|obs| ≤ threshold)
  if |obs| ≤ threshold then (container ||| (1 <<< pidCounter), pidCounter + 1)
  else (container, pidCounter + 1)

/-- One species of the PID loop of `getCutContainer` (lines 504-510):
offset-correct the TPC and TOF n-sigma, form the quadrature combination,
and append the two PID bits. -/
noncomputable def pidStep (cfg : Config) (t : Track) (sel : SelectionCriterion)
    (s : CutState) (p : Nat) : CutState :=
  let pidTPCVal : ℝ := (t.tpcNSigma p : ℝ) - (cfg.nSigmaPIDOffsetTPC : ℝ)
  let pidTOFVal : ℝ := (t.tofNSigma p : ℝ) - (cfg.nSigmaPIDOffsetTOF : ℝ)
  let pidComb : ℝ := Real.sqrt (pidTPCVal * pidTPCVal + pidTOFVal * pidTOFVal)
  let r1 := checkSelectionSetBitPID (sel.threshold : ℝ) pidTPCVal s.outputPID s.pidCounter
  let r2 := checkSelectionSetBitPID (sel.threshold : ℝ) pidComb r1.1 r1.2
  { s with outputPID := r2.1, pidCounter := r2.2 }

/-- The `switch (selVariable)` of `getCutContainer` (lines 514-557): which
track observable each variable kind selects.  The `kPIDnSigmaMax` case of
the source switch has no assignment, so the previous value of the
`observable` local is kept. -/
noncomputable def switchObservable (v : TrackSel) (t : Track) (prev : ℝ) : ℝ :=
  match v with
  | .kSign => (t.sign : ℝ)
  | .kpTMin => (t.pt : ℝ)
  | .kpTMax => (t.pt : ℝ)
  | .kEtaMax => (t.eta : ℝ)
  | .kTPCnClsMin => (t.tpcNClsFound : ℝ)
  | .kTPCfClsMin => (t.tpcCrossedRowsOverFindableCls : ℝ)
  | .kTPCcRowsMin => (t.tpcNClsCrossedRows : ℝ)
  | .kTPCsClsMax => (t.tpcNClsShared : ℝ)
  | .kTPCfracsClsMax => (t.tpcFractionSharedCls : ℝ)
  | .kITSnClsMin => (t.itsNCls : ℝ)
  | .kITSnClsIbMin => (t.itsNClsInnerBarrel : ℝ)
  | .kDCAxyMax => (t.dcaXY : ℝ)
  | .kDCAzMax => (t.dcaZ : ℝ)
  | .kDCAMin => cutContainerDca t
  | .kPIDnSigmaMax => prev

/-- One iteration of the `for (auto& sel : mSelections)` loop of
`getCutContainer` (lines 500-560): the PID kind walks the species list and
touches only the PID container; every other kind selects its observable
and runs the ordinary bit test. -/
noncomputable def processSelection (cfg : Config) (t : Track) (st : CutState)
    (sel : SelectionCriterion) : CutState :=
  if sel.selVariable = TrackSel.kPIDnSigmaMax then
    cfg.kPIDspecies.foldl (pidStep cfg t sel) st
  else
    let obs := switchObservable sel.selVariable t st.observable
    let r := checkSelectionSetBit (getSelectionType sel.selVariable)
      (sel.threshold : ℝ) obs st.output st.counter
    { st with observable := obs, output := r.1, counter := r.2 }

/-- `getCutContainer` (lines 473-562), with the member/track state it
finishes with returned explicitly: the loop writes only its locals, so the
engine state and the track come back unchanged. -/
noncomputable def getCutContainerST (cfg : Config) (t : Track) :
    (Nat × Nat) × Config × Track :=
  let final := cfg.mSelections.foldl (processSelection cfg t)
    { output := 0, counter := 0, outputPID := 0, pidCounter := 0, observable := 0 }
  ((final.output, final.outputPID), cfg, t)

/-- The pair (ordinary bits, PID bits) `getCutContainer` returns. -/
noncomputable def getCutContainer (cfg : Config) (t : Track) : Nat × Nat :=
  (getCutContainerST cfg t).1

/-- The externally supplied configuration before `init` runs: the
registered criteria of the base class, the PID species, the reject flag
and the two n-sigma offsets. -/
structure RawSetup where
  mSelections : List SelectionCriterion
  kPIDspecies : List Nat
  nRejectNotPropagatedTracks : Bool
  nSigmaPIDOffsetTPC : ℚ
  nSigmaPIDOffsetTOF : ℚ
deriving DecidableEq

/-- Modelled from the spec: `getNSelections()` of the base class — the
number of registered criteria. -/
def getNSelections (sels : List SelectionCriterion) : Nat := sels.length

/-- Modelled from the spec: `getNSelections(variable)` of the base class —
the number of registered criteria of one variable kind. -/
def getNSelectionsFor (sels : List SelectionCriterion) (v : TrackSel) : Nat :=
  (sels.filter (fun s => decide (s.selVariable = v))).length

/-- Modelled from the spec: the tightest-bound combination of
`collapseThresholds` — maximum for lower limits, minimum for upper limits,
the value itself for equality. -/
def tighten (ty : SelectionType) (acc x : ℚ) : ℚ :=
  match ty with
  | .kLowerLimit => max acc x
  | .kUpperLimit => min acc x
  | .kAbsLowerLimit => max acc x
  | .kAbsUpperLimit => min acc x
  | .kEqual => x

/-- Modelled from the spec: `getMinimalSelection(variable, type)` of the
base class — the single most restrictive threshold among the registered
criteria of one kind (meaningful only when that kind's count is
positive). -/
def getMinimalSelection (sels : List SelectionCriterion) (v : TrackSel)
    (ty : SelectionType) : ℚ :=
  match (sels.filter (fun s => decide (s.selVariable = v))).map SelectionCriterion.threshold with
  | [] => 0
  | x :: xs => xs.foldl (tighten ty) x

/-- The member assignments of `init` (lines 344-373 of the source): record
the per-kind counts and collapse the thresholds.  Note line 372: the
`dcaMin` collapse is requested with `kAbsLowerLimit`. -/
def initConfig (raw : RawSetup) : Config where
  nRejectNotPropagatedTracks := raw.nRejectNotPropagatedTracks
  nPtMinSel := (getNSelectionsFor raw.mSelections .kpTMin : Int)
  nPtMaxSel := (getNSelectionsFor raw.mSelections .kpTMax : Int)
  nEtaSel := (getNSelectionsFor raw.mSelections .kEtaMax : Int)
  nTPCnMinSel := (getNSelectionsFor raw.mSelections .kTPCnClsMin : Int)
  nTPCfMinSel := (getNSelectionsFor raw.mSelections .kTPCfClsMin : Int)
  nTPCcMinSel := (getNSelectionsFor raw.mSelections .kTPCcRowsMin : Int)
  nTPCsMaxSel := (getNSelectionsFor raw.mSelections .kTPCsClsMax : Int)
  nTPCsFracMaxSel := (getNSelectionsFor raw.mSelections .kTPCfracsClsMax : Int)
  nITScMinSel := (getNSelectionsFor raw.mSelections .kITSnClsMin : Int)
  nITScIbMinSel := (getNSelectionsFor raw.mSelections .kITSnClsIbMin : Int)
  nDCAxyMaxSel := (getNSelectionsFor raw.mSelections .kDCAxyMax : Int)
  nDCAzMaxSel := (getNSelectionsFor raw.mSelections .kDCAzMax : Int)
  nDCAMinSel := (getNSelectionsFor raw.mSelections .kDCAMin : Int)
  nPIDnSigmaSel := (getNSelectionsFor raw.mSelections .kPIDnSigmaMax : Int)
  pTMin := getMinimalSelection raw.mSelections .kpTMin .kLowerLimit
  pTMax := getMinimalSelection raw.mSelections .kpTMax .kUpperLimit
  etaMax := getMinimalSelection raw.mSelections .kEtaMax .kAbsUpperLimit
  nClsMin := getMinimalSelection raw.mSelections .kTPCnClsMin .kLowerLimit
  fClsMin := getMinimalSelection raw.mSelections .kTPCfClsMin .kLowerLimit
  cTPCMin := getMinimalSelection raw.mSelections .kTPCcRowsMin .kLowerLimit
  sTPCMax := getMinimalSelection raw.mSelections .kTPCsClsMax .kUpperLimit
  fracsTPCMax := getMinimalSelection raw.mSelections .kTPCfracsClsMax .kUpperLimit
  nITSclsMin := getMinimalSelection raw.mSelections .kITSnClsMin .kLowerLimit
  nITSclsIbMin := getMinimalSelection raw.mSelections .kITSnClsIbMin .kLowerLimit
  dcaXYMax := getMinimalSelection raw.mSelections .kDCAxyMax .kAbsUpperLimit
  dcaZMax := getMinimalSelection raw.mSelections .kDCAzMax .kAbsUpperLimit
  dcaMin := getMinimalSelection raw.mSelections .kDCAMin .kAbsLowerLimit
  nSigmaPIDMax := getMinimalSelection raw.mSelections .kPIDnSigmaMax .kAbsUpperLimit
  nSigmaPIDOffsetTPC := raw.nSigmaPIDOffsetTPC
  nSigmaPIDOffsetTOF := raw.nSigmaPIDOffsetTOF
  kPIDspecies := raw.kPIDspecies
  mSelections := raw.mSelections

/-- The fatal-overflow condition of `init` (lines 302-310 of the source):
the bitmap-size check runs only inside the `if (registry)` block, and
compares the number of non-PID criteria with the container bit width. -/
def initFatal (registryPresent : Bool) (raw : RawSetup) (containerBits : Nat) : Bool :=
  registryPresent &&
    decide (getNSelections raw.mSelections
      - getNSelectionsFor raw.mSelections .kPIDnSigmaMax > containerBits)

/-- `init` (lines 299-374): `none` models the `LOG(fatal)` abort, `some`
the configured engine state. -/
def init (registryPresent : Bool) (raw : RawSetup) (containerBits : Nat) :
    Option Config :=
  if initFatal registryPresent raw containerBits then none
  else some (initConfig raw)

/-! Concrete fixtures used by the witnesses and counterexamples. -/

/-- A track with every observable zero. -/
def track0 : Track where
  sign := 0
  pt := 0
  eta := 0
  tpcNClsFound := 0
  tpcCrossedRowsOverFindableCls := 0
  tpcNClsCrossedRows := 0
  tpcNClsShared := 0
  tpcFractionSharedCls := 0
  itsNCls := 0
  itsNClsInnerBarrel := 0
  dcaXY := 0
  dcaZ := 0
  tpcNSigma := fun _ => 0
  tofNSigma := fun _ => 0

/-- An engine state with no active selection of any kind. -/
def config0 : Config where
  nRejectNotPropagatedTracks := false
  nPtMinSel := 0
  nPtMaxSel := 0
  nEtaSel := 0
  nTPCnMinSel := 0
  nTPCfMinSel := 0
  nTPCcMinSel := 0
  nTPCsMaxSel := 0
  nTPCsFracMaxSel := 0
  nITScMinSel := 0
  nITScIbMinSel := 0
  nDCAxyMaxSel := 0
  nDCAzMaxSel := 0
  nDCAMinSel := 0
  nPIDnSigmaSel := 0
  pTMin := 0
  pTMax := 0
  etaMax := 0
  nClsMin := 0
  fClsMin := 0
  cTPCMin := 0
  sTPCMax := 0
  fracsTPCMax := 0
  nITSclsMin := 0
  nITSclsIbMin := 0
  dcaXYMax := 0
  dcaZMax := 0
  dcaMin := 0
  nSigmaPIDMax := 0
  nSigmaPIDOffsetTPC := 0
  nSigmaPIDOffsetTOF := 0
  kPIDspecies := []
  mSelections := []

/-- Nine non-PID criteria: one more than an 8-bit container holds. -/
def raw9 : RawSetup where
  mSelections := List.replicate 9 { selVariable := TrackSel.kpTMin, threshold := 0 }
  kPIDspecies := []
  nRejectNotPropagatedTracks := false
  nSigmaPIDOffsetTPC := 0
  nSigmaPIDOffsetTOF := 0

/-- PID-only configuration with two species and max |n-sigma| 3. -/
def cfg5 : Config :=
  { config0 with nPIDnSigmaSel := 1, nSigmaPIDMax := 3, kPIDspecies := [0, 1] }

/-- Species 0 at 2.9 sigma, every other species at 10 sigma. -/
def t5 : Track :=
  { track0 with tpcNSigma := fun p => if p = 0 then 29 / 10 else 10 }

/-- PID-only configuration with one species and max |n-sigma| 3. -/
def cfg6 : Config :=
  { config0 with nPIDnSigmaSel := 1, nSigmaPIDMax := 3, kPIDspecies := [0] }

/-- A track sitting exactly at the PID bound. -/
def t6 : Track :=
  { track0 with tpcNSigma := fun _ => 3 }

/-- No active cut, but the reject-not-propagated flag raised. -/
def cfg7 : Config :=
  { config0 with nRejectNotPropagatedTracks := true }

/-- A track far outside the propagation sentinel. -/
def t7 : Track :=
  { track0 with dcaXY := 2000 }

/-- A track differing from `track0` only in pT. -/
def t8b : Track :=
  { track0 with pt := 5 }

/-- Every non-PID check active with its collapsed bound at zero: `track0`
sits exactly on every boundary. -/
def cfgB : Config :=
  { config0 with
    nPtMinSel := 1
    nPtMaxSel := 1
    nEtaSel := 1
    nTPCnMinSel := 1
    nTPCfMinSel := 1
    nTPCcMinSel := 1
    nTPCsMaxSel := 1
    nTPCsFracMaxSel := 1
    nITScMinSel := 1
    nITScIbMinSel := 1
    nDCAxyMaxSel := 1
    nDCAzMaxSel := 1
    nDCAMinSel := 1 }

/-- A PID criterion, for exercising the PID arm of the container loop. -/
def sel4 : SelectionCriterion where
  selVariable := TrackSel.kPIDnSigmaMax
  threshold := 3

/-- A container loop state with nonzero locals, for the PID no-op witness. -/
noncomputable def st4 : CutState where
  output := 5
  counter := 2
  outputPID := 1
  pidCounter := 1
  observable := 7

/-! Helper lemmas shared by several claims. -/

/-- `isSelectedMinimal` as the conjunction of its fourteen cut checks and
the PID disjunct, one boolean conjunct per early return of the source, in
source order. -/
theorem isSelectedMinimal_eq (cfg : Config) (t : Track) :
    isSelectedMinimal cfg t =
      (!(decide (0 < cfg.nPtMinSel ∧ t.pt < cfg.pTMin)) &&
       !(decide (0 < cfg.nPtMaxSel ∧ cfg.pTMax < t.pt)) &&
       !(decide (0 < cfg.nEtaSel ∧ cfg.etaMax < |t.eta|)) &&
       !(decide (0 < cfg.nTPCnMinSel ∧ t.tpcNClsFound < cfg.nClsMin)) &&
       !(decide (0 < cfg.nTPCfMinSel ∧ t.tpcCrossedRowsOverFindableCls < cfg.fClsMin)) &&
       !(decide (0 < cfg.nTPCcMinSel ∧ t.tpcNClsCrossedRows < cfg.cTPCMin)) &&
       !(decide (0 < cfg.nTPCsMaxSel ∧ cfg.sTPCMax < t.tpcNClsShared)) &&
       !(decide (0 < cfg.nTPCsFracMaxSel ∧ cfg.fracsTPCMax < t.tpcFractionSharedCls)) &&
       !(decide (0 < cfg.nITScMinSel ∧ t.itsNCls < cfg.nITSclsMin)) &&
       !(decide (0 < cfg.nITScIbMinSel ∧ t.itsNClsInnerBarrel < cfg.nITSclsIbMin)) &&
       !(decide (0 < cfg.nDCAxyMaxSel ∧ cfg.dcaXYMax < |t.dcaXY|)) &&
       !(decide (0 < cfg.nDCAzMaxSel ∧ cfg.dcaZMax < |t.dcaZ|)) &&
       !(decide (0 < cfg.nDCAMinSel ∧ |minimalDca t| < cfg.dcaMin)) &&
       !(decide (cfg.nRejectNotPropagatedTracks = true ∧ 1000 < |minimalDca t|)) &&
       (!(decide (0 < cfg.nPIDnSigmaSel)) || pidFulfilled cfg t)) := by
  unfold isSelectedMinimal isSelectedMinimalST
  by_cases h1 : 0 < cfg.nPtMinSel ∧ t.pt < cfg.pTMin
  · rw [if_pos h1]; simp [h1]
  rw [if_neg h1]
  by_cases h2 : 0 < cfg.nPtMaxSel ∧ cfg.pTMax < t.pt
  · rw [if_pos h2]; simp [h2]
  rw [if_neg h2]
  by_cases h3 : 0 < cfg.nEtaSel ∧ cfg.etaMax < |t.eta|
  · rw [if_pos h3]; simp [h3]
  rw [if_neg h3]
  by_cases h4 : 0 < cfg.nTPCnMinSel ∧ t.tpcNClsFound < cfg.nClsMin
  · rw [if_pos h4]; simp [h4]
  rw [if_neg h4]
  by_cases h5 : 0 < cfg.nTPCfMinSel ∧ t.tpcCrossedRowsOverFindableCls < cfg.fClsMin
  · rw [if_pos h5]; simp [h5]
  rw [if_neg h5]
  by_cases h6 : 0 < cfg.nTPCcMinSel ∧ t.tpcNClsCrossedRows < cfg.cTPCMin
  · rw [if_pos h6]; simp [h6]
  rw [if_neg h6]
  by_cases h7 : 0 < cfg.nTPCsMaxSel ∧ cfg.sTPCMax < t.tpcNClsShared
  · rw [if_pos h7]; simp [h7]
  rw [if_neg h7]
  by_cases h8 : 0 < cfg.nTPCsFracMaxSel ∧ cfg.fracsTPCMax < t.tpcFractionSharedCls
  · rw [if_pos h8]; simp [h8]
  rw [if_neg h8]
  by_cases h9 : 0 < cfg.nITScMinSel ∧ t.itsNCls < cfg.nITSclsMin
  · rw [if_pos h9]; simp [h9]
  rw [if_neg h9]
  by_cases h10 : 0 < cfg.nITScIbMinSel ∧ t.itsNClsInnerBarrel < cfg.nITSclsIbMin
  · rw [if_pos h10]; simp [h10]
  rw [if_neg h10]
  by_cases h11 : 0 < cfg.nDCAxyMaxSel ∧ cfg.dcaXYMax < |t.dcaXY|
  · rw [if_pos h11]; simp [h11]
  rw [if_neg h11]
  by_cases h12 : 0 < cfg.nDCAzMaxSel ∧ cfg.dcaZMax < |t.dcaZ|
  · rw [if_pos h12]; simp [h12]
  rw [if_neg h12]
  by_cases h13 : 0 < cfg.nDCAMinSel ∧ |minimalDca t| < cfg.dcaMin
  · rw [if_pos h13]; simp [h13]
  rw [if_neg h13]
  by_cases h14 : cfg.nRejectNotPropagatedTracks = true ∧ 1000 < |minimalDca t|
  · rw [if_pos h14]; simp [h14]
  rw [if_neg h14]
  by_cases h15 : 0 < cfg.nPIDnSigmaSel
  · rw [if_pos h15]
    simp [h1, h2, h3, h4, h5, h6, h7, h8, h9, h10, h11, h12, h13, h14, h15]
  · rw [if_neg h15]
    simp [h1, h2, h3, h4, h5, h6, h7, h8, h9, h10, h11, h12, h13, h14, h15]

/-- The species loop of the PID arm writes only the PID container and the
PID bit index. -/
theorem foldl_pidStep_frame (cfg : Config) (t : Track) (sel : SelectionCriterion) :
    ∀ (l : List Nat) (st : CutState),
      ((l.foldl (pidStep cfg t sel) st).output = st.output ∧
       (l.foldl (pidStep cfg t sel) st).counter = st.counter ∧
       (l.foldl (pidStep cfg t sel) st).observable = st.observable) := by
  intro l
  induction l with
  | nil => intro st; exact ⟨rfl, rfl, rfl⟩
  | cons p ps ih => intro st; exact ih (pidStep cfg t sel st p)

/-- A common left part of two equal string concatenations cancels. -/
theorem str_append_cancel (p a b : String) : p ++ a = p ++ b ↔ a = b := by
  constructor
  · intro h
    have hd : (p ++ a).data = (p ++ b).data := congrArg String.data h
    simp only [String.data_append] at hd
    exact String.ext (List.append_cancel_left hd)
  · intro h; rw [h]

/-- `List.find?` only sees the predicate pointwise. -/
theorem list_find_congr {α : Type} (f g : α → Bool) (h : ∀ a, f a = g a) :
    ∀ l : List α, l.find? f = l.find? g := by
  intro l
  induction l with
  | nil => rfl
  | cons x xs ih => simp only [List.find?, h x, ih]

/-- C1: what the static catalogue actually contains.  The table entry for
`kDCAMin` is `kAbsUpperLimit`, not the `kAbsLowerLimit` the claim (and the
code's own `init`, which collapses `dcaMin` with `kAbsLowerLimit`, and the
minimal path, which rejects on `|dca| < dcaMin`) expect; every other entry
is as the claim lists it. -/
theorem c1_selection_type_table :
    getSelectionType TrackSel.kDCAMin = SelectionType.kAbsUpperLimit ∧
    getSelectionType TrackSel.kDCAMin ≠ SelectionType.kAbsLowerLimit ∧
    (∀ raw : RawSetup, (initConfig raw).dcaMin =
      getMinimalSelection raw.mSelections TrackSel.kDCAMin SelectionType.kAbsLowerLimit) ∧
    getSelectionType TrackSel.kSign = SelectionType.kEqual ∧
    getSelectionType TrackSel.kpTMin = SelectionType.kLowerLimit ∧
    getSelectionType TrackSel.kpTMax = SelectionType.kUpperLimit ∧
    getSelectionType TrackSel.kEtaMax = SelectionType.kAbsUpperLimit ∧
    getSelectionType TrackSel.kTPCnClsMin = SelectionType.kLowerLimit ∧
    getSelectionType TrackSel.kTPCfClsMin = SelectionType.kLowerLimit ∧
    getSelectionType TrackSel.kTPCcRowsMin = SelectionType.kLowerLimit ∧
    getSelectionType TrackSel.kTPCsClsMax = SelectionType.kUpperLimit ∧
    getSelectionType TrackSel.kTPCfracsClsMax = SelectionType.kUpperLimit ∧
    getSelectionType TrackSel.kITSnClsMin = SelectionType.kLowerLimit ∧
    getSelectionType TrackSel.kITSnClsIbMin = SelectionType.kLowerLimit ∧
    getSelectionType TrackSel.kDCAxyMax = SelectionType.kAbsUpperLimit ∧
    getSelectionType TrackSel.kDCAzMax = SelectionType.kAbsUpperLimit ∧
    getSelectionType TrackSel.kPIDnSigmaMax = SelectionType.kAbsUpperLimit := by
  refine ⟨by decide, by decide, fun raw => rfl, ?_⟩
  decide

/-- C2: the minimal path's DCA is dcaXY alone, the container path's DCA is
the Euclidean combination, and the two differ on any track with
dcaXY = 0.1 and dcaZ = 0.2. -/
theorem c2_dca_divergence :
    (∀ t : Track, minimalDca t = t.dcaXY) ∧
    (∀ t : Track, cutContainerDca t = Real.sqrt ((t.dcaXY : ℝ) ^ 2 + (t.dcaZ : ℝ) ^ 2)) ∧
    (∀ t : Track, t.dcaXY = 1 / 10 → t.dcaZ = 1 / 5 →
      ((minimalDca t : ℝ) ≠ cutContainerDca t)) := by
  refine ⟨fun t => rfl, fun t => rfl, fun t h1 h2 hEq => ?_⟩
  unfold minimalDca cutContainerDca at hEq
  rw [h1, h2] at hEq
  have h3 : Real.sqrt ((((1 : ℚ) / 10 : ℚ) : ℝ) ^ 2 + (((1 : ℚ) / 5 : ℚ) : ℝ) ^ 2) ^ 2 =
      (((1 : ℚ) / 10 : ℚ) : ℝ) ^ 2 + (((1 : ℚ) / 5 : ℚ) : ℝ) ^ 2 :=
    Real.sq_sqrt (by positivity)
  rw [← hEq] at h3
  push_cast at h3
  norm_num at h3

/-- C3 counterexample: a configuration with nine non-PID criteria and an
8-bit container, initialized without a registry: the overflow check sits
inside the `if (registry)` block of the source, so `init` does not fail. -/
theorem c3_overflow_check_skipped_without_registry :
    getNSelections raw9.mSelections
        - getNSelectionsFor raw9.mSelections TrackSel.kPIDnSigmaMax = 9 ∧
    (init false raw9 8).isSome = true := by
  constructor
  · decide
  · decide

/-- C3 amended: when a registry is supplied, more active non-PID criteria
than container bits is fatal and exactly as many succeeds; when no
registry is supplied, the bitmap-size check is skipped and `init` succeeds
regardless of the criterion count. -/
theorem c3_overflow_fatal_amended : ∀ (raw : RawSetup) (containerBits : Nat),
    (getNSelections raw.mSelections
        - getNSelectionsFor raw.mSelections TrackSel.kPIDnSigmaMax > containerBits →
      init true raw containerBits = none) ∧
    (getNSelections raw.mSelections
        - getNSelectionsFor raw.mSelections TrackSel.kPIDnSigmaMax ≤ containerBits →
      init true raw containerBits = some (initConfig raw)) ∧
    init false raw containerBits = some (initConfig raw) := by
  intro raw bits
  refine ⟨fun h => ?_, fun h => ?_, ?_⟩
  · simp [init, initFatal, h]
  · simp [init, initFatal, Nat.not_lt.mpr h]
  · simp [init, initFatal]

/-- C3 witness: the amended statement at the nine-criterion setup with a
9-bit container. -/
theorem c3_overflow_fatal_amended_witness :
    (getNSelections raw9.mSelections
        - getNSelectionsFor raw9.mSelections TrackSel.kPIDnSigmaMax > 8 →
      init true raw9 8 = none) ∧
    (getNSelections raw9.mSelections
        - getNSelectionsFor raw9.mSelections TrackSel.kPIDnSigmaMax ≤ 8 →
      init true raw9 8 = some (initConfig raw9)) ∧
    init false raw9 8 = some (initConfig raw9) :=
  c3_overflow_fatal_amended raw9 8

/-- C4: a criterion whose variable kind gets no observable assignment in
the bit-assignment switch (`kPIDnSigmaMax`, diverted to the PID arm) never
touches the ordinary output container, its bit counter or the `observable`
local, so it cannot set an ordinary bit nor shift any other criterion's
bit; and the switch itself keeps the previous observable for that kind. -/
theorem c4_pid_switch_noop : ∀ (cfg : Config) (t : Track) (st : CutState)
    (sel : SelectionCriterion), sel.selVariable = TrackSel.kPIDnSigmaMax →
    (processSelection cfg t st sel).output = st.output ∧
    (processSelection cfg t st sel).counter = st.counter ∧
    (processSelection cfg t st sel).observable = st.observable ∧
    switchObservable TrackSel.kPIDnSigmaMax t st.observable = st.observable := by
  intro cfg t st sel h
  have frame := foldl_pidStep_frame cfg t sel cfg.kPIDspecies st
  unfold processSelection
  rw [if_pos h]
  exact ⟨frame.1, frame.2.1, frame.2.2, rfl⟩

/-- C4 witness: the PID no-op at a concrete loop state with nonzero
locals. -/
theorem c4_pid_switch_noop_witness :
    (processSelection cfg5 t5 st4 sel4).output = st4.output ∧
    (processSelection cfg5 t5 st4 sel4).counter = st4.counter ∧
    (processSelection cfg5 t5 st4 sel4).observable = st4.observable ∧
    switchObservable TrackSel.kPIDnSigmaMax t5 st4.observable = st4.observable :=
  c4_pid_switch_noop cfg5 t5 st4 sel4 rfl

/-- C5: with the PID criterion active, the PID portion of the minimal pass
is an OR across the configured species of the strict offset-corrected TPC
bound, and a minimal pass implies the PID portion held. -/
theorem c5_pid_or_semantics : ∀ (cfg : Config) (t : Track),
    0 < cfg.nPIDnSigmaSel →
    ((pidFulfilled cfg t = true) ↔
      ∃ p ∈ cfg.kPIDspecies,
        |t.tpcNSigma p - cfg.nSigmaPIDOffsetTPC| < cfg.nSigmaPIDMax) ∧
    (isSelectedMinimal cfg t = true → pidFulfilled cfg t = true) := by
  intro cfg t hpid
  constructor
  · simp [pidFulfilled, List.any_map, List.any_eq_true]
  · intro hsel
    rw [isSelectedMinimal_eq] at hsel
    simp only [Bool.and_eq_true] at hsel
    have hlast := hsel.2
    simpa [hpid] using hlast

/-- C5 witness: with max 3 and offset 0, species 0 at 2.9 sigma and
species 1 at 10 sigma, the PID portion passes (OR semantics), and the
whole minimal pass succeeds. -/
theorem c5_pid_or_semantics_witness :
    (((pidFulfilled cfg5 t5 = true) ↔
      ∃ p ∈ cfg5.kPIDspecies,
        |t5.tpcNSigma p - cfg5.nSigmaPIDOffsetTPC| < cfg5.nSigmaPIDMax) ∧
     (isSelectedMinimal cfg5 t5 = true → pidFulfilled cfg5 t5 = true)) ∧
    pidFulfilled cfg5 t5 = true ∧ isSelectedMinimal cfg5 t5 = true := by
  have hp : pidFulfilled cfg5 t5 = true := by
    norm_num [pidFulfilled, cfg5, t5, config0, track0, abs_lt]
  refine ⟨c5_pid_or_semantics cfg5 t5 (by decide), hp, ?_⟩
  norm_num [isSelectedMinimal_eq, cfg5, config0, t5, track0]
  exact hp

/-- C6 counterexample: a PID criterion with max 3 and offset 0, and a track
whose TPC n-sigma is exactly 3: the claimed inclusive bound
(`|observable| ≤ T`) holds, yet the PID portion of `isSelectedMinimal`
fails, because the source compares with strict `<` (line 462). -/
theorem c6_pid_boundary_strict_counterexample :
    |(3 : ℚ) - 0| ≤ 3 ∧ pidFulfilled cfg6 t6 = false ∧
    isSelectedMinimal cfg6 t6 = false := by
  have hp : pidFulfilled cfg6 t6 = false := by
    norm_num [pidFulfilled, cfg6, t6, config0, track0]
  refine ⟨by norm_num, hp, ?_⟩
  norm_num [isSelectedMinimal_eq, cfg6, config0, t6, track0]
  exact hp

/-- C6 amended: comparison boundaries are inclusive for every non-PID
check applied during evaluation — a track sitting exactly on every
collapsed bound passes `isSelectedMinimal` outright whatever checks are
active (and concretely does so with all thirteen active), while strictly
exceeding an absolute ceiling fails — and the framework's test-and-set
criteria are likewise inclusive (a LowerLimit test passes at exactly its
threshold, an AbsUpperLimit test passes at exactly minus its threshold and
fails just above it, with the bit set exactly when the test passes); the
sole exception is the PID n-sigma check of `isSelectedMinimal`, which is
strict: whenever every configured species sits at or beyond the bound,
the PID portion fails. -/
theorem c6_inclusive_bounds_amended :
    (∀ (cfg : Config) (t : Track),
      cfg.nRejectNotPropagatedTracks = false →
      cfg.nPIDnSigmaSel = 0 →
      t.pt = cfg.pTMin → t.pt = cfg.pTMax →
      |t.eta| = cfg.etaMax →
      t.tpcNClsFound = cfg.nClsMin →
      t.tpcCrossedRowsOverFindableCls = cfg.fClsMin →
      t.tpcNClsCrossedRows = cfg.cTPCMin →
      t.tpcNClsShared = cfg.sTPCMax →
      t.tpcFractionSharedCls = cfg.fracsTPCMax →
      t.itsNCls = cfg.nITSclsMin →
      t.itsNClsInnerBarrel = cfg.nITSclsIbMin →
      |t.dcaXY| = cfg.dcaXYMax →
      |t.dcaZ| = cfg.dcaZMax →
      |minimalDca t| = cfg.dcaMin →
      isSelectedMinimal cfg t = true) ∧
    isSelectedMinimal cfgB track0 = true ∧
    (∀ (cfg : Config) (t : Track), 0 < cfg.nEtaSel → cfg.etaMax < |t.eta| →
      isSelectedMinimal cfg t = false) ∧
    (∀ (cfg : Config) (t : Track), 0 < cfg.nDCAxyMaxSel → cfg.dcaXYMax < |t.dcaXY| →
      isSelectedMinimal cfg t = false) ∧
    (∀ (cfg : Config) (t : Track), 0 < cfg.nDCAzMaxSel → cfg.dcaZMax < |t.dcaZ| →
      isSelectedMinimal cfg t = false) ∧
    (∀ T : ℝ, passes SelectionType.kLowerLimit T T) ∧
    (∀ T : ℝ, 0 ≤ T → passes SelectionType.kAbsUpperLimit T (-T)) ∧
    (∀ T ε : ℝ, 0 ≤ T → 0 < ε → ¬ passes SelectionType.kAbsUpperLimit T (T + ε)) ∧
    (∀ (ty : SelectionType) (thr obs : ℝ) (container counter : Nat),
      (passes ty thr obs →
        (checkSelectionSetBit ty thr obs container counter).1 = container ||| (1 <<< counter)) ∧
      (¬ passes ty thr obs →
        (checkSelectionSetBit ty thr obs container counter).1 = container) ∧
      (checkSelectionSetBit ty thr obs container counter).2 = counter + 1) ∧
    (∀ (cfg : Config) (t : Track),
      (∀ p ∈ cfg.kPIDspecies, cfg.nSigmaPIDMax ≤ |t.tpcNSigma p - cfg.nSigmaPIDOffsetTPC|) →
      pidFulfilled cfg t = false) := by
  refine ⟨?_, by decide, ?_, ?_, ?_, fun T => le_refl T, ?_, ?_, ?_, ?_⟩
  · intro cfg t hflag hpid h1 h2 h3 h4 h5 h6 h7 h8 h9 h10 h11 h12 h13
    rw [isSelectedMinimal_eq]
    simp [← h1, ← h2, ← h3, ← h4, ← h5, ← h6, ← h7, ← h8, ← h9, ← h10, ← h11, ← h12,
      ← h13, hflag, hpid]
  · intro cfg t hc hl
    rw [isSelectedMinimal_eq]
    simp [hc, hl]
  · intro cfg t hc hl
    rw [isSelectedMinimal_eq]
    simp [hc, hl]
  · intro cfg t hc hl
    rw [isSelectedMinimal_eq]
    simp [hc, hl]
  · intro T h
    simp [passes, abs_of_nonneg h]
  · intro T ε hT hε hp
    unfold passes at hp
    rw [abs_of_nonneg (by linarith)] at hp
    linarith
  · intro ty thr obs container counter
    unfold checkSelectionSetBit
    by_cases h : passes ty thr obs
    · rw [if_pos h]
      exact ⟨fun _ => rfl, fun hn => absurd h hn, rfl⟩
    · rw [if_neg h]
      exact ⟨fun hy => absurd hy h, fun _ => rfl, rfl⟩
  · intro cfg t h
    simp only [pidFulfilled, List.any_eq_false]
    intro v hv
    obtain ⟨p, hp, rfl⟩ := List.mem_map.mp hv
    simp only [decide_eq_true_eq, not_lt]
    exact h p hp

/-- C7: with the reject-not-propagated flag raised, any track whose
absolute minimal-path DCA (dcaXY) exceeds the sentinel 1000 fails
`isSelectedMinimal`, whatever else is configured. -/
theorem c7_reject_not_propagated : ∀ (cfg : Config) (t : Track),
    cfg.nRejectNotPropagatedTracks = true → 1000 < |minimalDca t| →
    isSelectedMinimal cfg t = false := by
  intro cfg t hf hd
  rw [isSelectedMinimal_eq]
  simp [hf, hd]

/-- C7 witness: a track with dcaXY = 2000 and the flag raised is
rejected. -/
theorem c7_reject_not_propagated_witness : isSelectedMinimal cfg7 t7 = false :=
  c7_reject_not_propagated cfg7 t7 rfl (by decide)

/-- C8: an observable whose every guarding criterion count is zero (with
the reject flag down for dcaXY) cannot influence `isSelectedMinimal`: two
tracks may differ in any such observables and still evaluate alike. -/
theorem c8_inactive_kind_noninterference : ∀ (cfg : Config) (t1 t2 : Track),
    (t1.pt = t2.pt ∨ (cfg.nPtMinSel = 0 ∧ cfg.nPtMaxSel = 0)) →
    (t1.eta = t2.eta ∨ cfg.nEtaSel = 0) →
    (t1.tpcNClsFound = t2.tpcNClsFound ∨ cfg.nTPCnMinSel = 0) →
    (t1.tpcCrossedRowsOverFindableCls = t2.tpcCrossedRowsOverFindableCls ∨ cfg.nTPCfMinSel = 0) →
    (t1.tpcNClsCrossedRows = t2.tpcNClsCrossedRows ∨ cfg.nTPCcMinSel = 0) →
    (t1.tpcNClsShared = t2.tpcNClsShared ∨ cfg.nTPCsMaxSel = 0) →
    (t1.tpcFractionSharedCls = t2.tpcFractionSharedCls ∨ cfg.nTPCsFracMaxSel = 0) →
    (t1.itsNCls = t2.itsNCls ∨ cfg.nITScMinSel = 0) →
    (t1.itsNClsInnerBarrel = t2.itsNClsInnerBarrel ∨ cfg.nITScIbMinSel = 0) →
    (t1.dcaXY = t2.dcaXY ∨
      (cfg.nDCAxyMaxSel = 0 ∧ cfg.nDCAMinSel = 0 ∧ cfg.nRejectNotPropagatedTracks = false)) →
    (t1.dcaZ = t2.dcaZ ∨ cfg.nDCAzMaxSel = 0) →
    (t1.tpcNSigma = t2.tpcNSigma ∨ cfg.nPIDnSigmaSel = 0) →
    isSelectedMinimal cfg t1 = isSelectedMinimal cfg t2 := by
  intro cfg t1 t2 hPt hEta hNCls hFCls hCRows hShared hFrac hIts hItsIb hXY hZ hPid
  rw [isSelectedMinimal_eq, isSelectedMinimal_eq]
  have e1 : decide (0 < cfg.nPtMinSel ∧ t1.pt < cfg.pTMin)
      = decide (0 < cfg.nPtMinSel ∧ t2.pt < cfg.pTMin) := by
    rcases hPt with h | ⟨h, _⟩
    · rw [h]
    · simp [h]
  have e2 : decide (0 < cfg.nPtMaxSel ∧ cfg.pTMax < t1.pt)
      = decide (0 < cfg.nPtMaxSel ∧ cfg.pTMax < t2.pt) := by
    rcases hPt with h | ⟨_, h⟩
    · rw [h]
    · simp [h]
  have e3 : decide (0 < cfg.nEtaSel ∧ cfg.etaMax < |t1.eta|)
      = decide (0 < cfg.nEtaSel ∧ cfg.etaMax < |t2.eta|) := by
    rcases hEta with h | h
    · rw [h]
    · simp [h]
  have e4 : decide (0 < cfg.nTPCnMinSel ∧ t1.tpcNClsFound < cfg.nClsMin)
      = decide (0 < cfg.nTPCnMinSel ∧ t2.tpcNClsFound < cfg.nClsMin) := by
    rcases hNCls with h | h
    · rw [h]
    · simp [h]
  have e5 : decide (0 < cfg.nTPCfMinSel ∧ t1.tpcCrossedRowsOverFindableCls < cfg.fClsMin)
      = decide (0 < cfg.nTPCfMinSel ∧ t2.tpcCrossedRowsOverFindableCls < cfg.fClsMin) := by
    rcases hFCls with h | h
    · rw [h]
    · simp [h]
  have e6 : decide (0 < cfg.nTPCcMinSel ∧ t1.tpcNClsCrossedRows < cfg.cTPCMin)
      = decide (0 < cfg.nTPCcMinSel ∧ t2.tpcNClsCrossedRows < cfg.cTPCMin) := by
    rcases hCRows with h | h
    · rw [h]
    · simp [h]
  have e7 : decide (0 < cfg.nTPCsMaxSel ∧ cfg.sTPCMax < t1.tpcNClsShared)
      = decide (0 < cfg.nTPCsMaxSel ∧ cfg.sTPCMax < t2.tpcNClsShared) := by
    rcases hShared with h | h
    · rw [h]
    · simp [h]
  have e8 : decide (0 < cfg.nTPCsFracMaxSel ∧ cfg.fracsTPCMax < t1.tpcFractionSharedCls)
      = decide (0 < cfg.nTPCsFracMaxSel ∧ cfg.fracsTPCMax < t2.tpcFractionSharedCls) := by
    rcases hFrac with h | h
    · rw [h]
    · simp [h]
  have e9 : decide (0 < cfg.nITScMinSel ∧ t1.itsNCls < cfg.nITSclsMin)
      = decide (0 < cfg.nITScMinSel ∧ t2.itsNCls < cfg.nITSclsMin) := by
    rcases hIts with h | h
    · rw [h]
    · simp [h]
  have e10 : decide (0 < cfg.nITScIbMinSel ∧ t1.itsNClsInnerBarrel < cfg.nITSclsIbMin)
      = decide (0 < cfg.nITScIbMinSel ∧ t2.itsNClsInnerBarrel < cfg.nITSclsIbMin) := by
    rcases hItsIb with h | h
    · rw [h]
    · simp [h]
  have e11 : decide (0 < cfg.nDCAxyMaxSel ∧ cfg.dcaXYMax < |t1.dcaXY|)
      = decide (0 < cfg.nDCAxyMaxSel ∧ cfg.dcaXYMax < |t2.dcaXY|) := by
    rcases hXY with h | ⟨h, _, _⟩
    · rw [h]
    · simp [h]
  have e12 : decide (0 < cfg.nDCAzMaxSel ∧ cfg.dcaZMax < |t1.dcaZ|)
      = decide (0 < cfg.nDCAzMaxSel ∧ cfg.dcaZMax < |t2.dcaZ|) := by
    rcases hZ with h | h
    · rw [h]
    · simp [h]
  have e13 : decide (0 < cfg.nDCAMinSel ∧ |minimalDca t1| < cfg.dcaMin)
      = decide (0 < cfg.nDCAMinSel ∧ |minimalDca t2| < cfg.dcaMin) := by
    rcases hXY with h | ⟨_, h, _⟩
    · unfold minimalDca
      rw [h]
    · simp [h]
  have e14 : decide (cfg.nRejectNotPropagatedTracks = true ∧ 1000 < |minimalDca t1|)
      = decide (cfg.nRejectNotPropagatedTracks = true ∧ 1000 < |minimalDca t2|) := by
    rcases hXY with h | ⟨_, _, h⟩
    · unfold minimalDca
      rw [h]
    · simp [h]
  rw [e1, e2, e3, e4, e5, e6, e7, e8, e9, e10, e11, e12, e13, e14]
  rcases hPid with h | h
  · have epid : pidFulfilled cfg t1 = pidFulfilled cfg t2 := by
      unfold pidFulfilled
      rw [h]
    rw [epid]
  · simp [h]

/-- C8 witness: with no active selection, two tracks differing only in pT
evaluate alike. -/
theorem c8_inactive_kind_noninterference_witness :
    isSelectedMinimal config0 track0 = isSelectedMinimal config0 t8b :=
  c8_inactive_kind_noninterference config0 track0 t8b
    (Or.inr ⟨rfl, rfl⟩) (Or.inl rfl) (Or.inl rfl) (Or.inl rfl) (Or.inl rfl)
    (Or.inl rfl) (Or.inl rfl) (Or.inl rfl) (Or.inl rfl) (Or.inl rfl)
    (Or.inl rfl) (Or.inl rfl)

/-- C9: per-track evaluation is read-only — both evaluation paths return
the engine configuration and the track exactly as they received them, for
every configuration and every track. -/
theorem c9_evaluation_readonly : ∀ (cfg : Config) (t : Track),
    (isSelectedMinimalST cfg t).2 = (cfg, t) ∧
    (getCutContainerST cfg t).2 = (cfg, t) := by
  intro cfg t
  constructor
  · simp [isSelectedMinimalST, apply_ite Prod.snd]
  · rfl

/-- C9 witness: the read-only property at a concrete configuration and
track. -/
theorem c9_evaluation_readonly_witness :
    (isSelectedMinimalST cfg7 t7).2 = (cfg7, t7) ∧
    (getCutContainerST cfg7 t7).2 = (cfg7, t7) :=
  c9_evaluation_readonly cfg7 t7

/-- C10: name lookup round-trips — for every selection variable and every
name prefix, `findSelectionIndex` recovers the variable's index from
`getSelectionName`; the fifteen catalogue names are pairwise distinct; and
any string that is not the prefix followed by a catalogue name yields
-1. -/
theorem c10_selection_name_roundtrip :
    (∀ (v : TrackSel) (p : String),
      findSelectionIndex (getSelectionName v p "") p = (v.idx : Int)) ∧
    kSelectionNames.Nodup ∧
    (∀ (s p : String),
      (∀ i, i < kNtrackSelection → s ≠ p ++ kSelectionNames.getD i "") →
      findSelectionIndex s p = -1) := by
  refine ⟨?_, by decide, ?_⟩
  · intro v p
    unfold getSelectionName findSelectionIndex
    rw [String.append_empty]
    rw [list_find_congr _ (fun i => decide (kSelectionNames.getD v.idx "" = kSelectionNames.getD i ""))
        (fun i => decide_eq_decide.mpr (str_append_cancel p _ _))]
    cases v <;> decide
  · intro s p h
    unfold findSelectionIndex
    have hnone : (List.range kNtrackSelection).find?
        (fun i => decide (s = p ++ kSelectionNames.getD i "")) = none := by
      rw [List.find?_eq_none]
      intro x hx
      simp only [decide_eq_true_eq]
      exact h x (List.mem_range.mp hx)
    rw [hnone]

end FemtoUniverse
